import Mathlib

/-!
Shallow embedding of `easyeda2kicad/easyeda/parameters_easyeda.py`:
the normalization layer that turns raw EasyEDA attribute records into
typed symbol / footprint entities and converts footprint lengths to mm.

Modelling conventions:
* Python floats are embedded as exact rationals (`ℚ`); decimal literals
  such as `0.0254` denote the exact rational `254/10000`.
* A raw field value is an `EeValue`: a string, a number, a boolean, or
  Python's `None`.  Python truthiness is `EeValue.falsy`, and `a or b`
  is `pyOr a b`.
* A pydantic pre-validator is a function `EeValue → EeValue` (or
  `EeValue → Option EeValue` when the Python body can raise).
* Pydantic-v1 entity construction is a function from a raw record
  (each field an `Option EeValue`, `none` = key absent) to
  `Option entity`: per field, the pre-validator runs on the supplied
  value, then the value is coerced to the field's declared type
  (`toFloat`, `toBool`, `toStr`, `toInt`, `toOptFloat`); an absent
  required field, a `None` for a non-optional field, or an
  uncoercible value makes construction fail (`none`).
-/

/-- A raw value of one field of an EasyEDA record: string, number,
boolean or Python `None`. -/
inductive EeValue where
  | str (s : String)
  | num (q : ℚ)
  | boolean (b : Bool)
  | null
  deriving DecidableEq, Repr

/-- Python truthiness on raw values: `""`, `0`, `False` and `None` are falsy. -/
def EeValue.falsy : EeValue → Bool
  | .str s => s = ""
  | .num q => q = 0
  | .boolean b => !b
  | .null => true

/-- Python's `a or b` on raw values. -/
def pyOr (a b : EeValue) : EeValue :=
  if a.falsy then b else a

/-- Value of a list of decimal digit characters (most significant first). -/
def digitsToNat (l : List Char) : Nat :=
  l.foldl (fun a c => a * 10 + (c.toNat - 48)) 0

/-- Whether every character of the list is a decimal digit. -/
def allDigits (l : List Char) : Bool :=
  l.all Char.isDigit

/-- Lower-casing of an ASCII string, character by character. -/
def lowerString (s : String) : String :=
  ⟨s.data.map Char.toLower⟩

/-- Split a character list at every `'.'`. -/
def splitDot : List Char → List (List Char)
  | [] => [[]]
  | '.' :: rest => [] :: splitDot rest
  | c :: rest =>
      match splitDot rest with
      | h :: t => (c :: h) :: t
      | [] => [[c]]

/-- Python's `float(s)` on a plain decimal string: optional sign, then
digits with an optional fractional part (`"1"`, `"1.5"`, `".5"`, `"1."`).
Exponent and special forms are out of scope: no record considered here
uses them. Returns `none` where Python raises `ValueError`. -/
def parseFloat? (s : String) : Option ℚ :=
  let step := fun (body : List Char) (sgn : ℚ) =>
    match splitDot body with
    | [ip] =>
        if ip.length ≠ 0 ∧ allDigits ip then
          some (sgn * (digitsToNat ip : ℚ))
        else none
    | [ip, fp] =>
        if (ip.length ≠ 0 ∨ fp.length ≠ 0) ∧ allDigits ip ∧ allDigits fp then
          some (sgn * ((digitsToNat ip : ℚ) +
            (digitsToNat fp : ℚ) / ((10 : ℚ) ^ fp.length)))
        else none
    | _ => none
  match s.data with
  | '-' :: r => step r (-1)
  | '+' :: r => step r 1
  | r => step r 1

/-- Python's `int(s)` on a plain decimal integer string. -/
def parseInt? (s : String) : Option ℤ :=
  let step := fun (body : List Char) (sgn : ℤ) =>
    if body.length ≠ 0 ∧ allDigits body then
      some (sgn * (digitsToNat body : ℤ))
    else none
  match s.data with
  | '-' :: r => step r (-1)
  | '+' :: r => step r 1
  | r => step r 1

/-- Truncation of a rational toward zero, as Python's `int(float)`. -/
def truncQ (q : ℚ) : ℤ :=
  if 0 ≤ q then ⌊q⌋ else ⌈q⌉

/-- Pydantic-v1 coercion of a raw value to a `float` field: numbers pass,
numeric strings parse, booleans become 0/1, `None` is rejected. -/
def toFloat : EeValue → Option ℚ
  | .num q => some q
  | .str s => parseFloat? s
  | .boolean b => some (if b then 1 else 0)
  | .null => none

/-- Pydantic-v1 coercion of a raw value to an `Optional[float]` field:
`None` is accepted as the explicit "no value" marker. -/
def toOptFloat : EeValue → Option (Option ℚ)
  | .null => some none
  | v => (toFloat v).map some

/-- Pydantic-v1 coercion of a raw value to a `bool` field: booleans pass,
0/1 numbers and the usual true/false token strings coerce, everything
else (including `None` and the empty string) is rejected. -/
def toBool : EeValue → Option Bool
  | .boolean b => some b
  | .num q => if q = 0 then some false else if q = 1 then some true else none
  | .str s =>
      if lowerString s ∈ ["0", "off", "f", "false", "n", "no"] then some false
      else if lowerString s ∈ ["1", "on", "t", "true", "y", "yes"] then some true
      else none
  | .null => none

/-- Pydantic-v1 coercion of a raw value to a `str` field, on the string
inputs this layer receives (its lenient number-to-string coercion is
never exercised by the records considered here, so numbers and booleans
are out of scope); `None` is rejected. -/
def toStr : EeValue → Option String
  | .str s => some s
  | _ => none

/-- Pydantic-v1 coercion of a raw value to an `int` field: integers pass,
floats truncate toward zero, integer strings parse, `None` is rejected. -/
def toInt : EeValue → Option ℤ
  | .num q => some (truncQ q)
  | .str s => parseInt? s
  | .boolean b => some (if b then 1 else 0)
  | .null => none

/-- The electrical pin types of the source enum `EasyedaPinType`. -/
inductive EasyedaPinType where
  | unspecified
  | input
  | output
  | bidirectional
  | power
  deriving DecidableEq, Repr

/-- Numeric value of each `EasyedaPinType` member, as in the source enum. -/
def EasyedaPinType.value : EasyedaPinType → Nat
  | .unspecified => 0
  | .input => 1
  | .output => 2
  | .bidirectional => 3
  | .power => 4

/-- All members of the `EasyedaPinType` enum. -/
def EasyedaPinType.all : List EasyedaPinType :=
  [.unspecified, .input, .output, .bidirectional, .power]

/-- Member names of the `EasyedaPinType` enum. -/
def EasyedaPinType.name : EasyedaPinType → String
  | .unspecified => "unspecified"
  | .input => "input"
  | .output => "output"
  | .bidirectional => "bidirectional"
  | .power => "power"

/-- Whether a string is the name of an `EasyedaPinType` member. -/
def isEasyedaPinTypeName (s : String) : Bool :=
  EasyedaPinType.all.any (fun t => t.name = s)

/-- Whether a string is the decimal value of an `EasyedaPinType` member. -/
def isEasyedaPinTypeValue (s : String) : Bool :=
  EasyedaPinType.all.any (fun t => toString t.value = s)

-- ------------------------- pre-validators -------------------------

/-- The `parse_display_field` pre-validator shared (verbatim) by
`EeSymbolPinSettings`, `EeSymbolPinName`, `EeSymbolPinDotBis` and
`EeSymbolPinClock`: `True if field == "show" else field`. -/
def parse_display_field (v : EeValue) : EeValue :=
  if v = .str "show" then .boolean true else v

/-- The `empty_str_lock` pre-validator of the symbol entities and of
`EeFootprintPad`/`EeFootprintTrack`/`EeFootprintHole`/`EeFootprintCircle`:
`field or False`. -/
def empty_str_lock (v : EeValue) : EeValue :=
  pyOr v (.boolean false)

/-- The `empty_str_rotation` pre-validator of `EeSymbolPinSettings`,
`EeSymbolPinName` and `EeFootprintPad`: `field or 0.0`. -/
def empty_str_rotation (v : EeValue) : EeValue :=
  pyOr v (.num 0)

/-- The wildcard `empty_str_to_none` pre-validator of
`EeSymbolRectangle`, applied to every field: `field or None`. -/
def empty_str_to_none (v : EeValue) : EeValue :=
  pyOr v .null

/-- Whether a character list contains the adjacent pair `'p'`, `'t'`. -/
def containsPt : List Char → Bool
  | 'p' :: 't' :: _ => true
  | _ :: rest => containsPt rest
  | [] => false

/-- Left-to-right removal of every non-overlapping `'p'`, `'t'` pair. -/
def removePt : List Char → List Char
  | 'p' :: 't' :: rest => removePt rest
  | c :: rest => c :: removePt rest
  | [] => []

/-- Whether the string contains `"pt"`, as Python's `"pt" in s`. -/
def contains_pt (s : String) : Bool :=
  containsPt s.data

/-- Removal of every occurrence of `"pt"`, as Python's `s.replace("pt", "")`. -/
def replace_pt (s : String) : String :=
  ⟨removePt s.data⟩

/-- The `empty_str_font` pre-validator of `EeSymbolPinName.font_size`:
a string containing `"pt"` has every `"pt"` removed and is parsed as a
float (raising, i.e. `none`, when the remainder is not numeric); any
other value falls through to `font_size or 7.0`. -/
def empty_str_font (v : EeValue) : Option EeValue :=
  match v with
  | .str s =>
      if contains_pt s then (parseFloat? (replace_pt s)).map EeValue.num
      else some (pyOr (.str s) (.num 7))
  | v => some (pyOr v (.num 7))

namespace EeFootprintText

/-- The `empty_str_display` pre-validator of `EeFootprintText`:
`True if field == "" else field`. -/
def empty_str_display (v : EeValue) : EeValue :=
  if v = .str "" then .boolean true else v

/-- The `empty_str_lock` pre-validator of `EeFootprintText`,
`EeFootprintRectangle` and `EeFootprintArc`:
`False if field == "" else field`. -/
def empty_str_lock (v : EeValue) : EeValue :=
  if v = .str "" then .boolean false else v

/-- The `empty_str_rotation` pre-validator of `EeFootprintText`:
`0.0 if field == "" else field`. -/
def empty_str_rotation (v : EeValue) : EeValue :=
  if v = .str "" then .num 0 else v

end EeFootprintText

-- ------------------------- unit converter -------------------------

/-- The scalar converter: `convert_to_mm(dim) = float(dim) * 10 * 0.0254`. -/
def convert_to_mm (dim : ℚ) : ℚ :=
  dim * 10 * 0.0254

/-- Alias for the module-level `convert_to_mm`, used inside the
per-entity methods of the same name (where the bare name would denote
the method itself). -/
def to_mm (dim : ℚ) : ℚ :=
  convert_to_mm dim

-- ------------------------- symbol entities -------------------------

/-- The `EeSymbolBbox` model: the symbol bounding box, in native units. -/
structure EeSymbolBbox where
  x : ℚ
  y : ℚ
  deriving DecidableEq, Repr

/-- The `EeSymbolPinSettings` model (typed fields, post construction).
Its `type` field is declared `str` in the source, not `EasyedaPinType`. -/
structure EeSymbolPinSettings where
  is_displayed : Bool
  type : String
  spice_pin_number : String
  pos_x : ℚ
  pos_y : ℚ
  rotation : ℤ
  id : String
  is_locked : Bool
  deriving DecidableEq, Repr

/-- The `EeSymbolPinDot` model. -/
structure EeSymbolPinDot where
  dot_x : ℚ
  dot_y : ℚ
  deriving DecidableEq, Repr

/-- The `EeSymbolPinPath` dataclass (defined twice, identically, in the
source file). -/
structure EeSymbolPinPath where
  path : String
  color : String
  deriving DecidableEq, Repr

/-- The `EeSymbolPinName` model (typed fields, post construction). -/
structure EeSymbolPinName where
  is_displayed : Bool
  pos_x : ℚ
  pos_y : ℚ
  rotation : ℤ
  text : String
  text_anchor : String
  font : String
  font_size : ℚ
  deriving DecidableEq, Repr

/-- The `EeSymbolPinDotBis` model. -/
structure EeSymbolPinDotBis where
  is_displayed : Bool
  circle_x : ℚ
  circle_y : ℚ
  deriving DecidableEq, Repr

/-- The `EeSymbolPinClock` model. -/
structure EeSymbolPinClock where
  is_displayed : Bool
  path : String
  deriving DecidableEq, Repr

/-- The `EeSymbolPin` dataclass: one schematic pin. -/
structure EeSymbolPin where
  settings : EeSymbolPinSettings
  pin_dot : EeSymbolPinDot
  pin_path : EeSymbolPinPath
  name : EeSymbolPinName
  dot : EeSymbolPinDotBis
  clock : EeSymbolPinClock
  deriving DecidableEq, Repr

/-- The `EeSymbolRectangle` model (typed fields, post construction):
`rx`/`ry` are `Union[float, None]`, every other field non-optional. -/
structure EeSymbolRectangle where
  pos_x : ℚ
  pos_y : ℚ
  rx : Option ℚ
  ry : Option ℚ
  width : ℚ
  height : ℚ
  stroke_color : String
  stroke_width : String
  stroke_style : String
  fill_color : String
  id : String
  is_locked : Bool
  deriving DecidableEq, Repr

/-- The `EeSymbolPolyline` model (typed fields, post construction). -/
structure EeSymbolPolyline where
  points : String
  stroke_color : String
  stroke_width : String
  stroke_style : String
  fill_color : String
  id : String
  is_locked : Bool
  deriving DecidableEq, Repr

/-- The `EeSymbolPolygon` model: the source class subclasses
`EeSymbolPolyline` and adds nothing. -/
abbrev EeSymbolPolygon := EeSymbolPolyline

/-- The `EeSymbolPath` model (typed fields, post construction). -/
structure EeSymbolPath where
  paths : String
  stroke_color : String
  stroke_width : String
  stroke_style : String
  fill_color : String
  id : String
  is_locked : Bool
  deriving DecidableEq, Repr

/-- The `EeSymbolInfo` dataclass; `prefix_field` models the source field
named `prefix` (a Lean keyword). -/
structure EeSymbolInfo where
  name : String := ""
  prefix_field : String := ""
  package : String := ""
  manufacturer : String := ""
  datasheet : String := ""
  lcsc_id : String := ""
  jlc_id : String := ""
  deriving DecidableEq, Repr

/-- The `EeSymbol` dataclass: the whole schematic-symbol aggregate. -/
structure EeSymbol where
  info : EeSymbolInfo
  bbox : EeSymbolBbox
  pins : List EeSymbolPin := []
  rectangles : List EeSymbolRectangle := []
  polylines : List EeSymbolPolyline := []
  polygons : List EeSymbolPolygon := []
  paths : List EeSymbolPath := []
  deriving DecidableEq, Repr

-- ------------------------- footprint entities -------------------------

/-- The `EeFootprintBbox` dataclass. -/
structure EeFootprintBbox where
  x : ℚ
  y : ℚ
  deriving DecidableEq, Repr

/-- Method `EeFootprintBbox.convert_to_mm`: rescales `x` and `y`. -/
def EeFootprintBbox.convert_to_mm (b : EeFootprintBbox) : EeFootprintBbox :=
  { b with x := to_mm b.x, y := to_mm b.y }

/-- The `EeFootprintPad` model (typed fields, post construction). -/
structure EeFootprintPad where
  shape : String
  center_x : ℚ
  center_y : ℚ
  width : ℚ
  height : ℚ
  layer_id : ℤ
  net : String
  number : String
  hole_radius : ℚ
  points : String
  rotation : ℚ
  id : String
  hole_length : ℚ
  hole_point : String
  is_plated : Bool
  is_locked : Bool
  deriving DecidableEq, Repr

/-- Method `EeFootprintPad.convert_to_mm`: rescales `center_x`, `center_y`,
`width`, `height`, `hole_radius` and `hole_length`. -/
def EeFootprintPad.convert_to_mm (p : EeFootprintPad) : EeFootprintPad :=
  { p with
    center_x := to_mm p.center_x
    center_y := to_mm p.center_y
    width := to_mm p.width
    height := to_mm p.height
    hole_radius := to_mm p.hole_radius
    hole_length := to_mm p.hole_length }

/-- The `EeFootprintTrack` model (typed fields, post construction). -/
structure EeFootprintTrack where
  stroke_width : ℚ
  layer_id : ℤ
  net : String
  points : String
  id : String
  is_locked : Bool
  deriving DecidableEq, Repr

/-- Method `EeFootprintTrack.convert_to_mm`: rescales `stroke_width`. -/
def EeFootprintTrack.convert_to_mm (t : EeFootprintTrack) : EeFootprintTrack :=
  { t with stroke_width := to_mm t.stroke_width }

/-- The `EeFootprintHole` model (typed fields, post construction). -/
structure EeFootprintHole where
  center_x : ℚ
  center_y : ℚ
  radius : ℚ
  id : String
  is_locked : Bool
  deriving DecidableEq, Repr

/-- Method `EeFootprintHole.convert_to_mm`: rescales `center_x`, `center_y`, `radius`. -/
def EeFootprintHole.convert_to_mm (h : EeFootprintHole) : EeFootprintHole :=
  { h with
    center_x := to_mm h.center_x
    center_y := to_mm h.center_y
    radius := to_mm h.radius }

/-- The `EeFootprintCircle` model (typed fields, post construction). -/
structure EeFootprintCircle where
  cx : ℚ
  cy : ℚ
  radius : ℚ
  stroke_width : ℚ
  layer_id : ℤ
  id : String
  is_locked : Bool
  deriving DecidableEq, Repr

/-- Method `EeFootprintCircle.convert_to_mm`: rescales `cx`, `cy`, `radius`,
`stroke_width`. -/
def EeFootprintCircle.convert_to_mm (c : EeFootprintCircle) : EeFootprintCircle :=
  { c with
    cx := to_mm c.cx
    cy := to_mm c.cy
    radius := to_mm c.radius
    stroke_width := to_mm c.stroke_width }

/-- The `EeFootprintRectangle` model (typed fields, post construction). -/
structure EeFootprintRectangle where
  x : ℚ
  y : ℚ
  width : ℚ
  height : ℚ
  stroke_width : ℚ
  id : String
  layer_id : ℤ
  is_locked : Bool
  deriving DecidableEq, Repr

/-- Method `EeFootprintRectangle.convert_to_mm`: rescales `x`, `y`, `width`,
`height` (its `stroke_width` is left untouched by the source). -/
def EeFootprintRectangle.convert_to_mm (r : EeFootprintRectangle) :
    EeFootprintRectangle :=
  { r with
    x := to_mm r.x
    y := to_mm r.y
    width := to_mm r.width
    height := to_mm r.height }

/-- The `EeFootprintArc` model (typed fields, post construction).
The source class defines no `convert_to_mm` method. -/
structure EeFootprintArc where
  stroke_width : ℚ
  layer_id : ℤ
  net : String
  path : String
  helper_dots : String
  id : String
  is_locked : Bool
  deriving DecidableEq, Repr

/-- The `EeFootprintText` model (typed fields, post construction). -/
structure EeFootprintText where
  type : String
  center_x : ℚ
  center_y : ℚ
  stroke_width : ℚ
  rotation : ℤ
  miror : String
  layer_id : ℤ
  net : String
  font_size : ℚ
  text : String
  text_path : String
  is_displayed : Bool
  id : String
  is_locked : Bool
  deriving DecidableEq, Repr

/-- Method `EeFootprintText.convert_to_mm`: rescales `center_x`, `center_y`,
`stroke_width`, `font_size`. -/
def EeFootprintText.convert_to_mm (t : EeFootprintText) :
    EeFootprintText :=
  { t with
    center_x := to_mm t.center_x
    center_y := to_mm t.center_y
    stroke_width := to_mm t.stroke_width
    font_size := to_mm t.font_size }

/-- The `EeFootprintInfo` dataclass. -/
structure EeFootprintInfo where
  name : String
  fp_type : String
  model_3d_name : String
  deriving DecidableEq, Repr

/-- The `Ee3dModelBase` model: one (x, y, z) triple. -/
structure Ee3dModelBase where
  x : ℚ := 0
  y : ℚ := 0
  z : ℚ := 0
  deriving DecidableEq, Repr

/-- Method `Ee3dModelBase.convert_to_mm`: rescales `x` and `y`; the `z`
conversion is commented out in the source. -/
def Ee3dModelBase.convert_to_mm (m : Ee3dModelBase) : Ee3dModelBase :=
  { m with x := to_mm m.x, y := to_mm m.y }

/-- The `Ee3dModel` dataclass: a named placement made of a translation
triple and a rotation triple. -/
structure Ee3dModel where
  name : String
  uuid : String
  translation : Ee3dModelBase
  rotation : Ee3dModelBase
  raw_obj : Option String := none
  deriving DecidableEq, Repr

/-- Method `Ee3dModel.convert_to_mm`: converts the translation triple only. -/
def Ee3dModel.convert_to_mm (m : Ee3dModel) : Ee3dModel :=
  { m with translation := m.translation.convert_to_mm }

-- ------------------------- aggregates and layer operations -------------------------

/-- The `ee_footprint` dataclass: the whole PCB-footprint aggregate. -/
structure ee_footprint where
  info : EeFootprintInfo
  bbox : EeFootprintBbox
  model_3d : Ee3dModel
  pads : List EeFootprintPad := []
  tracks : List EeFootprintTrack := []
  holes : List EeFootprintHole := []
  circles : List EeFootprintCircle := []
  arcs : List EeFootprintArc := []
  rectangles : List EeFootprintRectangle := []
  texts : List EeFootprintText := []
  deriving DecidableEq, Repr

/-- Replace the element at index `i` of a list by its image under `f`
(identity when the index is out of range). -/
def modifyAt (f : α → α) : Nat → List α → List α
  | _, [] => []
  | 0, a :: as => f a :: as
  | n + 1, a :: as => a :: modifyAt f n as

/-- The post-construction mutating operations this layer defines: the
`convert_to_mm` methods of the footprint-family entities and of the
3D-model placement, applied to one entity of the aggregate.  No
symbol-family class and no `EeFootprintArc` defines such a method, so
none appears here. -/
inductive LayerOp where
  | bboxConv
  | padConv (i : Nat)
  | trackConv (i : Nat)
  | holeConv (i : Nat)
  | circleConv (i : Nat)
  | rectConv (i : Nat)
  | textConv (i : Nat)
  | modelConv
  deriving DecidableEq, Repr

/-- One schematic symbol and one footprint, as produced by one
conversion run of the layer. -/
structure LayerState where
  symbol : EeSymbol
  footprint : ee_footprint
  deriving DecidableEq, Repr

/-- Apply one layer operation to the state: each operation runs the
corresponding `convert_to_mm` method on the designated entity of the
footprint aggregate. -/
def applyOp : LayerOp → LayerState → LayerState
  | .bboxConv, s =>
      { s with footprint := { s.footprint with bbox := s.footprint.bbox.convert_to_mm } }
  | .padConv i, s =>
      { s with footprint :=
          { s.footprint with pads := modifyAt EeFootprintPad.convert_to_mm i s.footprint.pads } }
  | .trackConv i, s =>
      { s with footprint :=
          { s.footprint with tracks := modifyAt EeFootprintTrack.convert_to_mm i s.footprint.tracks } }
  | .holeConv i, s =>
      { s with footprint :=
          { s.footprint with holes := modifyAt EeFootprintHole.convert_to_mm i s.footprint.holes } }
  | .circleConv i, s =>
      { s with footprint :=
          { s.footprint with circles := modifyAt EeFootprintCircle.convert_to_mm i s.footprint.circles } }
  | .rectConv i, s =>
      { s with footprint :=
          { s.footprint with rectangles := modifyAt EeFootprintRectangle.convert_to_mm i s.footprint.rectangles } }
  | .textConv i, s =>
      { s with footprint :=
          { s.footprint with texts := modifyAt EeFootprintText.convert_to_mm i s.footprint.texts } }
  | .modelConv, s =>
      { s with footprint := { s.footprint with model_3d := s.footprint.model_3d.convert_to_mm } }

/-- Apply a sequence of layer operations, left to right. -/
def applyOps (ops : List LayerOp) (s : LayerState) : LayerState :=
  ops.foldl (fun st op => applyOp op st) s

-- ------------------------- raw-record construction -------------------------

/-- A raw record for `EeSymbolPinSettings`: one optional raw value per
declared field (`none` = key absent from the record). -/
structure PinSettingsRaw where
  is_displayed : Option EeValue
  type : Option EeValue
  spice_pin_number : Option EeValue
  pos_x : Option EeValue
  pos_y : Option EeValue
  rotation : Option EeValue
  id : Option EeValue
  is_locked : Option EeValue
  deriving DecidableEq, Repr

/-- Pydantic-v1 construction of `EeSymbolPinSettings` from a raw record:
per field, the pre-validator (where the class declares one) runs on the
supplied value, then the result is coerced to the declared type; the
model is produced only when every field validates. -/
def mkEeSymbolPinSettings (r : PinSettingsRaw) : Option EeSymbolPinSettings :=
  match r.is_displayed.bind (fun v => toBool (parse_display_field v)),
        r.type.bind toStr,
        r.spice_pin_number.bind toStr,
        r.pos_x.bind toFloat,
        r.pos_y.bind toFloat,
        r.rotation.bind (fun v => toInt (empty_str_rotation v)),
        r.id.bind toStr,
        r.is_locked.bind (fun v => toBool (empty_str_lock v)) with
  | some a, some b, some c, some d, some e, some f, some g, some h =>
      some ⟨a, b, c, d, e, f, g, h⟩
  | _, _, _, _, _, _, _, _ => none

/-- A raw record for `EeSymbolRectangle`: one optional raw value per
declared field. -/
structure RectangleRaw where
  pos_x : Option EeValue
  pos_y : Option EeValue
  rx : Option EeValue
  ry : Option EeValue
  width : Option EeValue
  height : Option EeValue
  stroke_color : Option EeValue
  stroke_width : Option EeValue
  stroke_style : Option EeValue
  fill_color : Option EeValue
  id : Option EeValue
  is_locked : Option EeValue
  deriving DecidableEq, Repr

/-- Pydantic-v1 construction of `EeSymbolRectangle` from a raw record:
the wildcard `empty_str_to_none` pre-validator runs on every supplied
field, then each result is coerced to the declared type (`Optional` only
for `rx`/`ry`); the model is produced only when every field validates. -/
def mkEeSymbolRectangle (r : RectangleRaw) : Option EeSymbolRectangle :=
  match r.pos_x.bind (fun v => toFloat (empty_str_to_none v)),
        r.pos_y.bind (fun v => toFloat (empty_str_to_none v)),
        r.rx.bind (fun v => toOptFloat (empty_str_to_none v)),
        r.ry.bind (fun v => toOptFloat (empty_str_to_none v)),
        r.width.bind (fun v => toFloat (empty_str_to_none v)),
        r.height.bind (fun v => toFloat (empty_str_to_none v)),
        r.stroke_color.bind (fun v => toStr (empty_str_to_none v)),
        r.stroke_width.bind (fun v => toStr (empty_str_to_none v)),
        r.stroke_style.bind (fun v => toStr (empty_str_to_none v)),
        r.fill_color.bind (fun v => toStr (empty_str_to_none v)),
        r.id.bind (fun v => toStr (empty_str_to_none v)),
        r.is_locked.bind (fun v => toBool (empty_str_to_none v)) with
  | some a, some b, some c, some d, some e, some f, some g, some h,
    some i, some j, some k, some l =>
      some ⟨a, b, c, d, e, f, g, h, i, j, k, l⟩
  | _, _, _, _, _, _, _, _, _, _, _, _ => none

-- ------------------------- Claim C1 -------------------------

/-- Claim C1: for every finite numeric `x`, the scalar unit converter
satisfies `convert_to_mm x = x * 10 * 0.0254 = x * 0.254`. -/
theorem convert_to_mm_spec (x : ℚ) :
    convert_to_mm x = x * 10 * 0.0254 ∧ convert_to_mm x = x * 0.254 := by
  constructor
  · rfl
  · show x * 10 * 0.0254 = x * 0.254
    ring

-- ------------------------- Claim C2 -------------------------

/-- Claim C2: one invocation of `EeFootprintPad.convert_to_mm`
multiplies exactly `center_x`, `center_y`, `width`, `height`,
`hole_radius` and `hole_length` by `0.254`, and leaves `shape`,
`layer_id`, `net`, `number`, `points`, `rotation`, `id`, `hole_point`,
`is_plated` and `is_locked` unchanged. -/
theorem pad_convert_to_mm_spec (p : EeFootprintPad) :
    (p.convert_to_mm.center_x = p.center_x * 0.254 ∧
     p.convert_to_mm.center_y = p.center_y * 0.254 ∧
     p.convert_to_mm.width = p.width * 0.254 ∧
     p.convert_to_mm.height = p.height * 0.254 ∧
     p.convert_to_mm.hole_radius = p.hole_radius * 0.254 ∧
     p.convert_to_mm.hole_length = p.hole_length * 0.254) ∧
    (p.convert_to_mm.shape = p.shape ∧
     p.convert_to_mm.layer_id = p.layer_id ∧
     p.convert_to_mm.net = p.net ∧
     p.convert_to_mm.number = p.number ∧
     p.convert_to_mm.points = p.points ∧
     p.convert_to_mm.rotation = p.rotation ∧
     p.convert_to_mm.id = p.id ∧
     p.convert_to_mm.hole_point = p.hole_point ∧
     p.convert_to_mm.is_plated = p.is_plated ∧
     p.convert_to_mm.is_locked = p.is_locked) := by
  refine ⟨⟨?_, ?_, ?_, ?_, ?_, ?_⟩, ?_⟩
  all_goals simp [EeFootprintPad.convert_to_mm, to_mm, convert_to_mm]
  all_goals ring

-- ------------------------- Claim C3 -------------------------

/-- Claim C3: `Ee3dModel.convert_to_mm` rescales only the x and y
components of the translation by `0.254`; the translation's z and all
three rotation components (and the other fields) are unchanged. -/
theorem model_3d_convert_to_mm_spec (m : Ee3dModel) :
    m.convert_to_mm.translation.x = m.translation.x * 0.254 ∧
    m.convert_to_mm.translation.y = m.translation.y * 0.254 ∧
    m.convert_to_mm.translation.z = m.translation.z ∧
    m.convert_to_mm.rotation = m.rotation ∧
    m.convert_to_mm.name = m.name ∧
    m.convert_to_mm.uuid = m.uuid ∧
    m.convert_to_mm.raw_obj = m.raw_obj := by
  refine ⟨?_, ?_, ?_, ?_, ?_, ?_, ?_⟩
  all_goals
    simp [Ee3dModel.convert_to_mm, Ee3dModelBase.convert_to_mm, to_mm,
      convert_to_mm]
  all_goals ring

-- ------------------------- Claim C4 -------------------------

/-- Claim C4 counterexample: the displayed-flag rule of
`EeFootprintText` does not return `True` on the marker token `"show"`
(it passes it through), and does not pass the empty string through
(it returns `True`). -/
theorem display_rule_cex :
    EeFootprintText.empty_str_display (EeValue.str "show") ≠ EeValue.boolean true ∧
    EeFootprintText.empty_str_display (EeValue.str "") ≠ EeValue.str "" := by
  decide

/-- Claim C4 (amended): the displayed-flag rule shared by the four
symbol-family pin classes maps `"show"` to `True` and passes any other
raw value (including the empty string) through unchanged; the
footprint-text displayed-flag rule instead maps the empty string to
`True` and passes any other raw value (including `"show"`) through
unchanged. -/
theorem display_rules_spec (v : EeValue) :
    parse_display_field (.str "show") = .boolean true ∧
    (v ≠ .str "show" → parse_display_field v = v) ∧
    EeFootprintText.empty_str_display (.str "") = .boolean true ∧
    (v ≠ .str "" → EeFootprintText.empty_str_display v = v) := by
  refine ⟨by decide, fun h => ?_, by decide, fun h => ?_⟩
  · simp [parse_display_field, h]
  · simp [EeFootprintText.empty_str_display, h]

/-- Witness for the amended claim C4, at the raw value `"hide"`. -/
theorem display_rules_spec_witness :
    parse_display_field (.str "hide") = .str "hide" ∧
    EeFootprintText.empty_str_display (.str "hide") = .str "hide" :=
  ⟨(display_rules_spec (.str "hide")).2.1 (by decide),
   (display_rules_spec (.str "hide")).2.2.2 (by decide)⟩

-- ------------------------- Claim C9 -------------------------

/-- Claim C9: no symbol-family entity is ever passed through the unit
converter: under any sequence of this layer's post-construction
operations the symbol aggregate — every pin, rectangle, polyline,
polygon, path, its info, and in particular its bounding box's x and y —
is unchanged. -/
theorem symbol_never_converted (ops : List LayerOp) (s : LayerState) :
    (applyOps ops s).symbol = s.symbol ∧
    (applyOps ops s).symbol.bbox.x = s.symbol.bbox.x ∧
    (applyOps ops s).symbol.bbox.y = s.symbol.bbox.y := by
  have key : ∀ (op : LayerOp) (t : LayerState), (applyOp op t).symbol = t.symbol := by
    intro op t
    cases op <;> rfl
  have main : (applyOps ops s).symbol = s.symbol := by
    induction ops generalizing s with
    | nil => rfl
    | cons op rest ih =>
        have step : applyOps (op :: rest) s = applyOps rest (applyOp op s) := rfl
        rw [step, ih (applyOp op s), key]
  exact ⟨main, by rw [main], by rw [main]⟩

-- ------------------------- Claim C10 -------------------------

/-- Claim C10: `EeFootprintArc` defines no unit-conversion mutator:
under any sequence of this layer's post-construction operations the arcs
of the footprint aggregate — in particular each arc's length-valued
`stroke_width` — are unchanged. -/
theorem arc_never_converted (ops : List LayerOp) (s : LayerState) :
    (applyOps ops s).footprint.arcs = s.footprint.arcs ∧
    (applyOps ops s).footprint.arcs.map EeFootprintArc.stroke_width =
      s.footprint.arcs.map EeFootprintArc.stroke_width := by
  have key : ∀ (op : LayerOp) (t : LayerState),
      (applyOp op t).footprint.arcs = t.footprint.arcs := by
    intro op t
    cases op <;> rfl
  have main : (applyOps ops s).footprint.arcs = s.footprint.arcs := by
    induction ops generalizing s with
    | nil => rfl
    | cons op rest ih =>
        have step : applyOps (op :: rest) s = applyOps rest (applyOp op s) := rfl
        rw [step, ih (applyOp op s), key]
  exact ⟨main, by rw [main]⟩

-- ------------------------- Claim C5 -------------------------

/-- If the coerced `pos_x` of a rectangle raw record rejects, the whole
construction rejects. -/
lemma mk_rect_none_of_pos_x (r : RectangleRaw)
    (h : (r.pos_x.bind fun v => toFloat (empty_str_to_none v)) = none) :
    mkEeSymbolRectangle r = none := by
  unfold mkEeSymbolRectangle
  rw [h]

/-- A successfully constructed rectangle's `rx` is the coerced raw `rx`. -/
lemma mk_rect_some_rx (r : RectangleRaw) (rect : EeSymbolRectangle)
    (hmk : mkEeSymbolRectangle r = some rect) :
    (r.rx.bind fun v => toOptFloat (empty_str_to_none v)) = some rect.rx := by
  unfold mkEeSymbolRectangle at hmk
  split at hmk
  case h_1 =>
    injection hmk with h
    subst h
    assumption
  case h_2 =>
    exact absurd hmk (by simp)

/-- Claim C5 counterexample: a rectangle raw record whose non-optional
numeric `pos_x` is the empty string fails construction (the wildcard
rule maps it to the None marker, which the `float` field then rejects)
instead of yielding an entity holding the marker. -/
theorem rectangle_empty_numeric_cex :
    mkEeSymbolRectangle
      ⟨some (.str ""), some (.num 2), some (.num 1), some (.num 1),
       some (.num 4), some (.num 5), some (.str "red"), some (.str "1"),
       some (.str "solid"), some (.str "nofill"), some (.str "r1"),
       some (.str "false")⟩ = none := by
  decide

/-- Claim C5 (amended): the wildcard rule does apply to every field of
the rectangle and maps the empty string (like every falsy raw value) to
the None marker without itself failing; but construction accepts that
marker only for the `Optional` fields `rx`/`ry` — a non-optional field
(e.g. the numeric `pos_x`) supplied as the empty string makes entity
construction fail rather than hold the marker. -/
theorem rectangle_wildcard_spec (v : EeValue) (r1 r2 : RectangleRaw)
    (rect : EeSymbolRectangle) :
    empty_str_to_none (.str "") = .null ∧
    (v.falsy = false → empty_str_to_none v = v) ∧
    (r1.rx = some (.str "") → mkEeSymbolRectangle r1 = some rect →
      rect.rx = none) ∧
    (r2.pos_x = some (.str "") → mkEeSymbolRectangle r2 = none) := by
  refine ⟨by decide, fun h => ?_, fun h1 h2 => ?_, fun h => ?_⟩
  · simp [empty_str_to_none, pyOr, h]
  · have h3 := mk_rect_some_rx r1 rect h2
    rw [h1] at h3
    have h4 : ((some (EeValue.str "")).bind
        fun v => toOptFloat (empty_str_to_none v)) = some (none : Option ℚ) := by
      decide
    rw [h4] at h3
    injection h3 with h5
    exact h5.symm
  · exact mk_rect_none_of_pos_x r2 (by rw [h]; decide)

/-- Witness for the amended claim C5: a concrete truthy value passes the
wildcard rule unchanged; a concrete record with `rx = ""` constructs
with `rx = none`; a concrete record with `pos_x = ""` fails. -/
theorem rectangle_wildcard_spec_witness :
    empty_str_to_none (.num 3) = .num 3 ∧
    (∃ rect, mkEeSymbolRectangle
      ⟨some (.num 1), some (.num 2), some (.str ""), some (.num 3),
       some (.num 4), some (.num 5), some (.str "red"), some (.str "1"),
       some (.str "solid"), some (.str "nofill"), some (.str "r1"),
       some (.str "false")⟩ = some rect ∧ rect.rx = none) ∧
    mkEeSymbolRectangle
      ⟨some (.str ""), some (.num 2), some (.str ""), some (.num 3),
       some (.num 4), some (.num 5), some (.str "red"), some (.str "1"),
       some (.str "solid"), some (.str "nofill"), some (.str "r1"),
       some (.str "false")⟩ = none := by
  have h := rectangle_wildcard_spec (.num 3)
    ⟨some (.num 1), some (.num 2), some (.str ""), some (.num 3),
     some (.num 4), some (.num 5), some (.str "red"), some (.str "1"),
     some (.str "solid"), some (.str "nofill"), some (.str "r1"),
     some (.str "false")⟩
    ⟨some (.str ""), some (.num 2), some (.str ""), some (.num 3),
     some (.num 4), some (.num 5), some (.str "red"), some (.str "1"),
     some (.str "solid"), some (.str "nofill"), some (.str "r1"),
     some (.str "false")⟩
    ⟨1, 2, none, some 3, 4, 5, "red", "1", "solid", "nofill", "r1", false⟩
  refine ⟨h.2.1 (by decide),
    ⟨⟨1, 2, none, some 3, 4, 5, "red", "1", "solid", "nofill", "r1", false⟩,
      by decide, h.2.2.1 rfl (by decide)⟩,
    h.2.2.2 rfl⟩

-- ------------------------- Claim C6 -------------------------

/-- If the raw `pos_x` of a pin-settings record is absent or rejects,
the whole construction rejects. -/
lemma mk_pin_none_of_pos_x (r : PinSettingsRaw)
    (h : r.pos_x.bind toFloat = none) :
    mkEeSymbolPinSettings r = none := by
  unfold mkEeSymbolPinSettings
  rw [h]
  split <;> simp_all

/-- If the raw `id` of a pin-settings record is absent or rejects,
the whole construction rejects. -/
lemma mk_pin_none_of_id (r : PinSettingsRaw)
    (h : r.id.bind toStr = none) :
    mkEeSymbolPinSettings r = none := by
  unfold mkEeSymbolPinSettings
  rw [h]
  split <;> simp_all

/-- A successfully constructed pin-settings' `type` is the coerced raw
`type`, with no further check. -/
lemma mk_pin_some_type (r : PinSettingsRaw) (st : EeSymbolPinSettings)
    (hmk : mkEeSymbolPinSettings r = some st) :
    r.type.bind toStr = some st.type := by
  unfold mkEeSymbolPinSettings at hmk
  split at hmk
  case h_1 =>
    injection hmk with h
    subst h
    assumption
  case h_2 =>
    exact absurd hmk (by simp)

/-- Claim C6 counterexample: a pin-settings record is constructed whose
electrical `type` is `"banana"`, a value outside the closed set of
`EasyedaPinType` member names (and outside their numeric tags). -/
theorem pin_type_cex :
    (mkEeSymbolPinSettings
      ⟨some (.str "show"), some (.str "banana"), some (.str "1"),
       some (.num 1), some (.num 2), some (.str ""), some (.str "p1"),
       some (.str "")⟩).map EeSymbolPinSettings.type = some "banana" ∧
    isEasyedaPinTypeName "banana" = false ∧
    isEasyedaPinTypeValue "banana" = false := by
  refine ⟨by decide, by decide, by decide⟩

/-- Claim C6 (amended): the source defines the five-member enum
`EasyedaPinType`, but the pin-settings `type` field is declared as a
plain string and no validator restricts it: construction passes any raw
string straight into the field, so electrical types outside the closed
set are representable. -/
theorem pin_type_unrestricted (r : PinSettingsRaw) (s : String)
    (st : EeSymbolPinSettings) :
    r.type = some (.str s) → mkEeSymbolPinSettings r = some st →
      st.type = s := by
  intro h1 h2
  have h3 := mk_pin_some_type r st h2
  rw [h1] at h3
  injection h3 with h4
  exact h4.symm

/-- Witness for the amended claim C6, at a record carrying the
out-of-set type `"banana"`. -/
theorem pin_type_unrestricted_witness :
    (⟨true, "banana", "1", 1, 2, 0, "p1", false⟩ :
      EeSymbolPinSettings).type = "banana" :=
  pin_type_unrestricted
    ⟨some (.str "show"), some (.str "banana"), some (.str "1"),
     some (.num 1), some (.num 2), some (.str ""), some (.str "p1"),
     some (.str "")⟩
    "banana"
    ⟨true, "banana", "1", 1, 2, 0, "p1", false⟩
    rfl (by decide)

-- ------------------------- Claim C7 -------------------------

/-- Claim C7 counterexample: a raw pin-settings record lacking only the
`pos_x` key (a field with no coercion rule) fails construction instead
of constructing with the zero default of its type. -/
theorem pin_absent_field_cex :
    mkEeSymbolPinSettings
      ⟨some (.str "show"), some (.str "0"), some (.str "1"), none,
       some (.num 2), some (.str ""), some (.str "p1"),
       some (.str "")⟩ = none := by
  decide

/-- Claim C7 (amended): the per-field coercion rules themselves never
fail, but entity construction is not total: a required field that is
absent from the raw record makes construction fail (no zero/default of
the declared type is substituted), and so does a numeric field whose
raw value does not parse. -/
theorem pin_construction_partial (r1 r2 r3 : PinSettingsRaw) :
    (r1.pos_x = none → mkEeSymbolPinSettings r1 = none) ∧
    (r2.id = none → mkEeSymbolPinSettings r2 = none) ∧
    (r3.pos_x = some (.str "abc") → mkEeSymbolPinSettings r3 = none) := by
  refine ⟨fun h => ?_, fun h => ?_, fun h => ?_⟩
  · exact mk_pin_none_of_pos_x r1 (by rw [h]; rfl)
  · exact mk_pin_none_of_id r2 (by rw [h]; rfl)
  · exact mk_pin_none_of_pos_x r3 (by rw [h]; decide)

/-- Witness for the amended claim C7: concrete records with an absent
`pos_x`, an absent `id`, and a non-numeric `pos_x` all fail. -/
theorem pin_construction_partial_witness :
    mkEeSymbolPinSettings
      ⟨some (.str "show"), some (.str "0"), some (.str "1"), none,
       some (.num 2), some (.str ""), some (.str "p2"),
       some (.str "")⟩ = none ∧
    mkEeSymbolPinSettings
      ⟨some (.str "show"), some (.str "0"), some (.str "1"),
       some (.num 1), some (.num 2), some (.str ""), none,
       some (.str "")⟩ = none ∧
    mkEeSymbolPinSettings
      ⟨some (.str "show"), some (.str "0"), some (.str "1"),
       some (.str "abc"), some (.num 2), some (.str ""), some (.str "p3"),
       some (.str "")⟩ = none := by
  have h := pin_construction_partial
    ⟨some (.str "show"), some (.str "0"), some (.str "1"), none,
     some (.num 2), some (.str ""), some (.str "p2"), some (.str "")⟩
    ⟨some (.str "show"), some (.str "0"), some (.str "1"),
     some (.num 1), some (.num 2), some (.str ""), none, some (.str "")⟩
    ⟨some (.str "show"), some (.str "0"), some (.str "1"),
     some (.str "abc"), some (.num 2), some (.str ""), some (.str "p3"),
     some (.str "")⟩
  exact ⟨h.1 rfl, h.2.1 rfl, h.2.2 rfl⟩

-- ------------------------- Claim C8 -------------------------

/-- Claim C8 counterexample: the font-size rule does not pass the raw
numeric value `0` through unchanged; `0` is falsy, so `font_size or 7.0`
yields the fallback `7.0`. -/
theorem font_size_cex :
    empty_str_font (.num 0) = some (.num 7) ∧ EeValue.num 0 ≠ EeValue.num 7 := by
  refine ⟨by decide, by decide⟩

/-- Claim C8 (amended): the font-size rule maps a `"pt"`-suffixed string
to the numeric value with the suffix stripped and maps the empty string
to the fallback `7.0`; but it passes through unchanged only the truthy
remaining raw values — every other falsy raw value (numeric `0`,
`False`, `None`) is also mapped to `7.0` (and a `"pt"`-containing string
whose remainder is not numeric fails). -/
theorem font_size_rule_spec (s : String) (q : ℚ) :
    empty_str_font (.str "10pt") = some (.num 10) ∧
    empty_str_font (.str "") = some (.num 7) ∧
    (contains_pt s = false → s ≠ "" → empty_str_font (.str s) = some (.str s)) ∧
    (q ≠ 0 → empty_str_font (.num q) = some (.num q)) ∧
    empty_str_font (.num 0) = some (.num 7) ∧
    empty_str_font (.boolean true) = some (.boolean true) ∧
    empty_str_font (.boolean false) = some (.num 7) ∧
    empty_str_font .null = some (.num 7) := by
  refine ⟨by with_unfolding_all decide, by decide, fun h1 h2 => ?_,
    fun h => ?_, by decide, by decide, by decide, by decide⟩
  · simp [empty_str_font, h1, pyOr, EeValue.falsy, h2]
  · simp [empty_str_font, pyOr, EeValue.falsy, h]

/-- Witness for the amended claim C8, at the truthy raw values `"abc"`
and `5`. -/
theorem font_size_rule_spec_witness :
    empty_str_font (.str "abc") = some (.str "abc") ∧
    empty_str_font (.num 5) = some (.num 5) := by
  have h := font_size_rule_spec "abc" 5
  exact ⟨h.2.2.1 (by decide) (by decide), h.2.2.2.1 (by decide)⟩
